import Mathlib

/-
  Verification development for the tightvnc-direct2d rendering subsystem.

  Shallow embedding of:
  - src/win-system/Direct2DSection.cpp  (Compositor backend)
  - src/win-system/RenderManager.cpp    (render coordinator)
  - src/gui/DibFrameBuffer.cpp          (managed frame-buffer facade)
  - src/io-lib/DataCopy.cpp             (FIFO byte queue)

  Native Win32 / Direct2D calls (IsWindow, GetDesktopWindow, GetClientRect,
  D2D1CreateFactory, CreateHwndRenderTarget, CreateDCRenderTarget, GetDC,
  BindDC, CreateBitmap, malloc, ID2D1HwndRenderTarget::Resize) are modelled
  by an explicit environment record `Env` that fixes the outcome of each
  call; the code under src/ is transcribed over that environment.
-/

namespace TightVNC

/-- region/Dimension.h: width and height as C `int`. -/
structure Dimension where
  width : Int
  height : Int
deriving DecidableEq, Repr

/-- region/Rect.h: left, top, right, bottom as C `int`;
`toWindowsRect` maps the fields one-to-one onto a Win32 RECT. -/
structure Rect where
  left : Int
  top : Int
  right : Int
  bottom : Int
deriving DecidableEq, Repr

/-- rfb/PixelFormat.h, reduced to what the embedded code reads
(the Direct2D path never inspects the pixel format). -/
structure PixelFormat where
  bitsPerPixel : Nat
deriving DecidableEq, Repr

/-- Conversion of a C `LONG` difference to `UINT`: reduction modulo 2^32
(`UINT newWidth = rect.right - rect.left` in Direct2DSection::resize). -/
def uint32OfInt (x : Int) : Nat :=
  (x % 4294967296).toNat

/-- Outcome environment for every native Win32 / Direct2D call the embedded
code performs.  Window handles are `Nat`, with 0 playing the role of NULL. -/
structure Env where
  /-- result of GetDesktopWindow (0 when it fails) -/
  desktopWin : Nat
  /-- result of IsWindow for each handle -/
  isWindow : Nat → Bool
  /-- GetClientRect width for each handle (client rect has left = top = 0) -/
  clientW : Nat → Nat
  /-- GetClientRect height for each handle -/
  clientH : Nat → Nat
  /-- result of the D2D1CreateFactory probe in RenderManager::isD2DAvailable -/
  d2dAvailable : Bool
  /-- whether CreateD2DFactory succeeds inside Direct2DSection::initDirect2D -/
  factoryOk : Bool
  /-- whether ID2D1Factory::CreateHwndRenderTarget succeeds -/
  hwndRTOk : Bool
  /-- whether ID2D1Factory::CreateDCRenderTarget succeeds -/
  dcRTOk : Bool
  /-- whether GetDC returns a non-null device context -/
  getDCOk : Bool
  /-- whether ID2D1DCRenderTarget::BindDC succeeds -/
  bindDCOk : Bool
  /-- whether ID2D1RenderTarget::CreateBitmap succeeds -/
  bitmapOk : Bool
  /-- whether malloc of the CPU-mirror buffer succeeds -/
  mallocOk : Bool
  /-- whether `new DibSection(...)` succeeds (DibSection.cpp is outside the
  supplied sources; only success or failure of its constructor is observable
  from RenderManager::createRenderer) -/
  dibCtorOk : Bool
  /-- whether ID2D1HwndRenderTarget::Resize succeeds -/
  hwndResizeOk : Bool

/-- Which kind of render target Direct2DSection ended up with:
m_pHwndRenderTarget set, or m_pDCRenderTarget set. -/
inductive TargetKind where
  | hwndRT
  | dcRT
deriving DecidableEq, Repr

/-- State of a constructed Direct2DSection (Compositor backend).
`rtPixelSize` models ID2D1RenderTarget::GetPixelSize; the unbound
DC render target reports size (0, 0).  `buffer` models m_bitmapBits
as a byte list (`some` iff the pointer is non-null). -/
structure D2DState where
  hwnd : Nat
  mWidth : Int
  mHeight : Int
  targetKind : TargetKind
  rtPixelSize : Nat × Nat
  bitmapSize : Nat × Nat
  buffer : Option (List Nat)
deriving DecidableEq, Repr

/-- Failure points of Direct2DSection::initDirect2D, in source order. -/
inductive D2DInitError where
  | noDesktopWindow
  | invalidWindow
  | factoryFailed
  | renderTargetFailed
  | bitmapFailed
  | allocFailed
deriving DecidableEq, Repr

/-- Direct2DSection::initDirect2D (Direct2DSection.cpp lines 321-488),
called by the Direct2DSection constructor.  The `pf` argument of the C++
function is never read and is omitted.  Transcription:
NULL window falls back to the desktop window; an invalid window throws;
factory creation failure throws; dimensions are clamped to at least 1;
the window-bound render target is attempted first, sized to the window
client area when that area is non-empty (otherwise to the clamped
dimensions); on failure a device-context render target is created and
bound to the window device context over the client rectangle; if both
render-target creations fail the function throws; then the native bitmap
(sized to the clamped requested dimension) and the zero-initialized
CPU-mirror buffer of width*height*4 bytes are created. -/
def initDirect2D (env : Env) (dim : Dimension) (compatibleWin : Nat) :
    Except D2DInitError D2DState :=
  let win := if compatibleWin = 0 then env.desktopWin else compatibleWin
  if compatibleWin = 0 ∧ env.desktopWin = 0 then
    .error .noDesktopWindow
  else if env.isWindow win = false then
    .error .invalidWindow
  else if env.factoryOk = false then
    .error .factoryFailed
  else
    let width := (max 1 dim.width).toNat
    let height := (max 1 dim.height).toNat
    let winW := env.clientW win
    let winH := env.clientH win
    let renderSize := if 0 < winW ∧ 0 < winH then (winW, winH) else (width, height)
    let finish : TargetKind → Nat × Nat → Except D2DInitError D2DState :=
      fun kind pxSize =>
        if env.bitmapOk = false then
          .error .bitmapFailed
        else if env.mallocOk = false then
          .error .allocFailed
        else
          .ok { hwnd := win, mWidth := dim.width, mHeight := dim.height,
                targetKind := kind, rtPixelSize := pxSize,
                bitmapSize := (width, height),
                buffer := some (List.replicate (width * height * 4) 0) }
    if env.hwndRTOk then
      finish .hwndRT renderSize
    else if env.dcRTOk then
      let boundSize :=
        if env.getDCOk then
          let rcSize := if 0 < winW ∧ 0 < winH then (winW, winH) else (width, height)
          if env.bindDCOk then rcSize else (0, 0)
        else (0, 0)
      finish .dcRT boundSize
    else
      .error .renderTargetFailed

/-- Errors raised by per-call rendering operations; SystemException
messages of the form "... is not supported in the Direct2D implementation"
are the UnsupportedOperation condition of the specification taxonomy. -/
inductive RenderError where
  | unsupportedOperation
deriving DecidableEq, Repr

/-- Direct2DSection::blitToDibSection(rect) (line 99): unconditionally
throws SystemException (UnsupportedOperation) before touching any state. -/
def d2dBlitToDibSection (st : D2DState) (rect : Rect) :
    Except RenderError D2DState :=
  .error .unsupportedOperation

/-- Direct2DSection::blitTransparentToDibSection(rect) (line 104):
unconditionally throws SystemException (UnsupportedOperation). -/
def d2dBlitTransparentToDibSection (st : D2DState) (rect : Rect) :
    Except RenderError D2DState :=
  .error .unsupportedOperation

/-- Direct2DSection::blitToDibSection(rect, flags) (line 316):
unconditionally throws SystemException (UnsupportedOperation). -/
def d2dBlitToDibSectionFlags (st : D2DState) (rect : Rect) (flags : Nat) :
    Except RenderError D2DState :=
  .error .unsupportedOperation

/-- Direct2DSection::resize (Direct2DSection.cpp lines 742-774).
Returns the updated section state together with the number of underlying
native resize/rebind calls issued (ID2D1HwndRenderTarget::Resize or
ID2D1DCRenderTarget::BindDC).  The new width/height are the UINT
differences of the RECT obtained from the rect; when both equal the
render target's current pixel size nothing happens.  Otherwise a
window-bound target is resized in place (size updated on success,
failure logged and swallowed) and a device-context target is rebound to
the window device context (only when GetDC succeeds; BindDC failure is
logged and swallowed). -/
def d2dResize (env : Env) (st : D2DState) (newSize : Rect) : D2DState × Nat :=
  let newWidth := uint32OfInt (newSize.right - newSize.left)
  let newHeight := uint32OfInt (newSize.bottom - newSize.top)
  if newWidth = st.rtPixelSize.1 ∧ newHeight = st.rtPixelSize.2 then
    (st, 0)
  else
    match st.targetKind with
    | .hwndRT =>
      if env.hwndResizeOk then
        ({ st with rtPixelSize := (newWidth, newHeight) }, 1)
      else
        (st, 1)
    | .dcRT =>
      if env.getDCOk then
        if env.bindDCOk then
          ({ st with rtPixelSize := (newWidth, newHeight) }, 1)
        else
          (st, 1)
      else
        (st, 0)

/-- RenderMode enumeration of RenderManager.h:
RENDER_MODE_GDI (Raster) and RENDER_MODE_DIRECT2D (Compositor). -/
inductive RenderMode where
  | gdi
  | direct2d
deriving DecidableEq, Repr

/-- The one failure RenderManager::createRenderer lets escape: DibSection
construction failing (directly in GDI mode, or as the fallback after a
Direct2D failure). -/
inductive RMError where
  | dibCreateFailed
deriving DecidableEq, Repr

/-- RenderManager state: current mode, m_window, m_dimension, and the two
backend slots.  Backends are identified by a fresh id drawn from `nextId`
so that instance identity (destroyed / recreated vs untouched) is
observable; the Direct2D slot also carries the Direct2DSection state. -/
structure RMState where
  mode : RenderMode
  window : Nat
  dimension : Dimension
  dibSection : Option Nat
  direct2DSection : Option (Nat × D2DState)
  nextId : Nat
deriving DecidableEq, Repr

/-- RenderManager::isD2DAvailable (RenderManager.cpp lines 291-315):
the factory probe, modelled by the environment flag. -/
def isD2DAvailable (env : Env) : Bool :=
  env.d2dAvailable

/-- RenderManager::destroyRenderer (lines 264-281): deletes whichever
backends exist and clears both slots. -/
def rmDestroyRenderer (s : RMState) : RMState :=
  { s with dibSection := none, direct2DSection := none }

/-- RenderManager::createRenderer (RenderManager.cpp lines 197-259).
In Direct2D mode: an invalid or NULL window is replaced by the desktop
window; with a valid window a Direct2DSection is constructed, and on a
caught construction failure the mode is downgraded to GDI and a fresh
DibSection is constructed instead (whose own failure propagates);
without a valid window the mode is downgraded to GDI directly.
In GDI mode a DibSection is constructed and its failure propagates. -/
def rmCreateRenderer (env : Env) (s : RMState) : Except RMError RMState :=
  match s.mode with
  | .direct2d =>
    let win := if s.window = 0 ∨ env.isWindow s.window = false then env.desktopWin
               else s.window
    let s1 := { s with window := win }
    if win ≠ 0 ∧ env.isWindow win = true then
      match initDirect2D env s1.dimension win with
      | .ok d2d =>
        .ok { s1 with direct2DSection := some (s1.nextId, d2d),
                      nextId := s1.nextId + 1 }
      | .error _ =>
        let s2 := { s1 with mode := .gdi, direct2DSection := none }
        if env.dibCtorOk then
          .ok { s2 with dibSection := some s2.nextId, nextId := s2.nextId + 1 }
        else
          .error .dibCreateFailed
    else
      let s2 := { s1 with mode := .gdi }
      if env.dibCtorOk then
        .ok { s2 with dibSection := some s2.nextId, nextId := s2.nextId + 1 }
      else
        .error .dibCreateFailed
  | .gdi =>
    if env.dibCtorOk then
      .ok { s with dibSection := some s.nextId, nextId := s.nextId + 1 }
    else
      .error .dibCreateFailed

/-- RenderManager constructor (RenderManager.cpp lines 44-68): a Direct2D
request on a system where the probe fails is downgraded to GDI, then
createRenderer runs. -/
def rmConstruct (env : Env) (dim : Dimension) (compatibleWin : Nat)
    (mode : RenderMode) : Except RMError RMState :=
  let m := if mode = .direct2d ∧ env.d2dAvailable = false then .gdi else mode
  rmCreateRenderer env
    { mode := m, window := compatibleWin, dimension := dim,
      dibSection := none, direct2DSection := none, nextId := 0 }

/-- RenderManager::setRenderMode (RenderManager.cpp lines 159-190).
Returns the C++ bool result paired with the new state; a propagating
DibSection construction failure becomes the error case.  Direct2D
requested while unavailable: returns false, no change.  Requested mode
equal to the current mode: returns false, no change.  Otherwise the
current renderer is destroyed, the mode is set, createRenderer runs,
and true is returned. -/
def rmSetRenderMode (env : Env) (s : RMState) (mode : RenderMode) :
    Except RMError (Bool × RMState) :=
  if mode = .direct2d ∧ env.d2dAvailable = false then
    .ok (false, s)
  else if mode = s.mode then
    .ok (false, s)
  else
    let s1 := rmDestroyRenderer s
    let s2 := { s1 with mode := mode }
    match rmCreateRenderer env s2 with
    | .ok s3 => .ok (true, s3)
    | .error e => .error e

/-- RenderManager::blitToDibSection (RenderManager.cpp lines 88-101):
routes to the Direct2D section when in Direct2D mode with a live section
(whose call throws), otherwise to the DibSection.  DibSection.cpp is
outside the supplied sources; its capture is modelled as succeeding with
no modelled state change, and the no-renderer case only logs. -/
def rmBlitToDibSection (s : RMState) (rect : Rect) :
    Except RenderError RMState :=
  match s.mode, s.direct2DSection with
  | .direct2d, some (i, d2d) =>
    match d2dBlitToDibSection d2d rect with
    | .ok d2d2 => .ok { s with direct2DSection := some (i, d2d2) }
    | .error e => .error e
  | _, _ => .ok s

/-- RenderManager::blitTransparentToDibSection (lines 103-116): same
routing as rmBlitToDibSection. -/
def rmBlitTransparentToDibSection (s : RMState) (rect : Rect) :
    Except RenderError RMState :=
  match s.mode, s.direct2DSection with
  | .direct2d, some (i, d2d) =>
    match d2dBlitTransparentToDibSection d2d rect with
    | .ok d2d2 => .ok { s with direct2DSection := some (i, d2d2) }
    | .error e => .error e
  | _, _ => .ok s

/-- RenderManager::resize (RenderManager.cpp lines 317-321):
`if (m_mode == RENDER_MODE_DIRECT2D) m_direct2DSection->resize(newSize);`
In GDI mode nothing at all happens.  In Direct2D mode the section is
resized (`none` models the null-pointer dereference when no section
exists).  The Nat component counts underlying native resize/rebind
calls, as in d2dResize. -/
def rmResize (env : Env) (s : RMState) (newSize : Rect) :
    Option (RMState × Nat) :=
  match s.mode, s.direct2DSection with
  | .direct2d, some (i, d2d) =>
    let p := d2dResize env d2d newSize
    some ({ s with direct2DSection := some (i, p.1) }, p.2)
  | .direct2d, none => none
  | .gdi, _ => some (s, 0)

/-- Errors raised by the DibFrameBuffer facade; the
"Wrong: You shouldn not use ..." Exception family is the
UnsupportedOperation condition of the specification taxonomy. -/
inductive FacadeError where
  | unsupportedOperation
deriving DecidableEq, Repr

/-- DibFrameBuffer facade state: the local FrameBuffer m_fb (pixel format,
dimension and buffer pointer, the latter aliasing the render manager's
buffer) plus the optional render manager.  FrameBuffer.cpp is outside the
supplied sources, but none of the embedded facade mutators reads it. -/
structure DibFBState where
  fbPixelFormat : PixelFormat
  fbDimension : Dimension
  fbBuffer : Option Nat
  renderManager : Option RMState
deriving DecidableEq, Repr

/-- DibFrameBuffer::assignProperties (DibFrameBuffer.cpp line 54):
unconditionally throws before touching any state. -/
def dibAssignProperties (s : DibFBState) (src : DibFBState) :
    Except FacadeError (Bool × DibFBState) :=
  .error .unsupportedOperation

/-- DibFrameBuffer::clone (line 59): unconditionally throws. -/
def dibClone (s : DibFBState) (src : DibFBState) :
    Except FacadeError (Bool × DibFBState) :=
  .error .unsupportedOperation

/-- DibFrameBuffer::setDimension(const Dimension*) (line 107):
unconditionally throws. -/
def dibSetDimensionDim (s : DibFBState) (newDim : Dimension) :
    Except FacadeError (Bool × DibFBState) :=
  .error .unsupportedOperation

/-- DibFrameBuffer::setDimension(const Rect*) (line 112):
unconditionally throws. -/
def dibSetDimensionRect (s : DibFBState) (rect : Rect) :
    Except FacadeError (Bool × DibFBState) :=
  .error .unsupportedOperation

/-- DibFrameBuffer::setPixelFormat (line 137): unconditionally throws. -/
def dibSetPixelFormat (s : DibFBState) (pf : PixelFormat) :
    Except FacadeError (Bool × DibFBState) :=
  .error .unsupportedOperation

/-- DibFrameBuffer::setProperties(const Dimension*, const PixelFormat*)
(line 147): unconditionally throws. -/
def dibSetPropertiesDim (s : DibFBState) (newDim : Dimension)
    (pf : PixelFormat) : Except FacadeError (Bool × DibFBState) :=
  .error .unsupportedOperation

/-- DibFrameBuffer::setProperties(const Rect*, const PixelFormat*)
(line 152): unconditionally throws. -/
def dibSetPropertiesRect (s : DibFBState) (rect : Rect)
    (pf : PixelFormat) : Except FacadeError (Bool × DibFBState) :=
  .error .unsupportedOperation

/-- DibFrameBuffer::setPropertiesWithoutResize (line 127):
unconditionally throws. -/
def dibSetPropertiesWithoutResize (s : DibFBState) (newDim : Dimension)
    (pf : PixelFormat) : Except FacadeError DibFBState :=
  .error .unsupportedOperation

/-- DibFrameBuffer::setBuffer (line 167): unconditionally throws. -/
def dibSetBuffer (s : DibFBState) (newBuffer : Option Nat) :
    Except FacadeError DibFBState :=
  .error .unsupportedOperation

/-- io-lib/DataCopy.h: the FIFO byte store, a std::vector of bytes. -/
structure DataCopy where
  buf : List Nat
deriving DecidableEq, Repr

/-- DataCopy::DataCopy(): the store starts empty. -/
def DataCopy.new : DataCopy :=
  ⟨[]⟩

/-- DataCopy::write (DataCopy.cpp lines 5-9): appends the len given bytes
at the end of the vector and returns len. -/
def DataCopy.write (dc : DataCopy) (data : List Nat) : Nat × DataCopy :=
  (data.length, ⟨dc.buf ++ data⟩)

/-- DataCopy::read (DataCopy.cpp lines 11-21): clamps the request to the
number of stored bytes, copies that many bytes from the front into the
output, shifts the remainder to the front, shrinks the vector, and
returns the clamped count.  Result: (bytes delivered, count, new store). -/
def DataCopy.read (dc : DataCopy) (len : Nat) : List Nat × Nat × DataCopy :=
  let have_ := dc.buf.length
  let k := if have_ < len then have_ else len
  (dc.buf.take k, k, ⟨dc.buf.drop k⟩)

/-- DataCopy::available (DataCopy.cpp lines 23-26): the stored byte count. -/
def DataCopy.available (dc : DataCopy) : Nat :=
  dc.buf.length

/-! Concrete fixtures used by witnesses and counterexamples. -/

/-- An environment in which every native call succeeds; window handle 0 is
NULL and every other handle is a valid window with an 800x600 client area. -/
def envAllOk : Env :=
  { desktopWin := 1, isWindow := fun w => w ≠ 0,
    clientW := fun _ => 800, clientH := fun _ => 600,
    d2dAvailable := true, factoryOk := true, hwndRTOk := true, dcRTOk := true,
    getDCOk := true, bindDCOk := true, bitmapOk := true, mallocOk := true,
    dibCtorOk := true, hwndResizeOk := true }

/-- envAllOk except that the Direct2D availability probe fails. -/
def envProbeFail : Env :=
  { envAllOk with d2dAvailable := false }

/-- envAllOk except that both render-target creations fail, so the probe
succeeds but Direct2DSection construction throws. -/
def envD2DFail : Env :=
  { envAllOk with hwndRTOk := false, dcRTOk := false }

/-- envAllOk except that ID2D1HwndRenderTarget::Resize fails (the source
logs and swallows that failure without updating the target size). -/
def envResizeFail : Env :=
  { envAllOk with hwndResizeOk := false }

/-- A successfully initialized coordinator currently holding a Raster
(GDI DibSection) backend with instance id 0. -/
def rmRaster0 : RMState :=
  { mode := .gdi, window := 5, dimension := ⟨640, 480⟩,
    dibSection := some 0, direct2DSection := none, nextId := 1 }

/-- A constructed Compositor backend with a window-bound render target of
pixel size 800x600 and a 2x3 requested dimension. -/
def d2dHwnd0 : D2DState :=
  { hwnd := 5, mWidth := 2, mHeight := 3, targetKind := .hwndRT,
    rtPixelSize := (800, 600), bitmapSize := (2, 3),
    buffer := some (List.replicate 24 0) }

/-- A coordinator in Direct2D mode holding d2dHwnd0 as backend id 0. -/
def rmD2D0 : RMState :=
  { mode := .direct2d, window := 5, dimension := ⟨2, 3⟩,
    dibSection := none, direct2DSection := some (0, d2dHwnd0), nextId := 1 }

/-- A facade state with no render manager (before any backend exists). -/
def fbEmpty : DibFBState :=
  { fbPixelFormat := ⟨32⟩, fbDimension := ⟨640, 480⟩,
    fbBuffer := none, renderManager := none }

/-! Theorems settling the claims. -/

/-- C3: whenever the accelerated-rendering capability probe reports
unavailable, every switchMode(Compositor) call (setRenderMode with
RENDER_MODE_DIRECT2D) returns failure (false) and leaves the coordinator
state — current mode and both backend slots, hence the backend instance —
literally unchanged. -/
theorem setRenderMode_probeFail_noop (env : Env) (s : RMState)
    (h : env.d2dAvailable = false) :
    rmSetRenderMode env s .direct2d = .ok (false, s) := by
  simp [rmSetRenderMode, h]

/-- Witness for C3 at a concrete probe-failing environment and a concrete
Raster-backed coordinator state. -/
theorem setRenderMode_probeFail_noop_witness :
    envProbeFail.d2dAvailable = false ∧
    rmSetRenderMode envProbeFail rmRaster0 .direct2d = .ok (false, rmRaster0) :=
  ⟨rfl, setRenderMode_probeFail_noop envProbeFail rmRaster0 rfl⟩

/-- C9: when the coordinator's current mode is Raster (GDI),
RenderManager::resize is a no-op for every rectangle: the state is
returned unchanged and zero native backend calls are performed. -/
theorem rmResize_gdi_noop (env : Env) (s : RMState) (newSize : Rect)
    (h : s.mode = .gdi) :
    rmResize env s newSize = some (s, 0) := by
  cases s with
  | mk mode window dimension dib sec nid =>
    cases sec <;> simp_all [rmResize]

/-- Witness for C9 at a concrete Raster-mode coordinator state. -/
theorem rmResize_gdi_noop_witness :
    rmRaster0.mode = .gdi ∧
    rmResize envAllOk rmRaster0 ⟨0, 0, 1024, 768⟩ = some (rmRaster0, 0) :=
  ⟨rfl, rmResize_gdi_noop envAllOk rmRaster0 ⟨0, 0, 1024, 768⟩ rfl⟩

/-- C5: on a Compositor backend, capture (blitToDibSection, also its
flags variant) and captureTransparent (blitTransparentToDibSection)
raise UnsupportedOperation for every rectangle, both on the backend
itself and routed through a Direct2D-mode coordinator; the error
propagates with no resulting state, so no capture is performed and no
other capture mechanism is reached. -/
theorem d2dCapture_unsupported (st : D2DState) (rect : Rect) (flags : Nat)
    (s : RMState) (i : Nat)
    (hmode : s.mode = .direct2d)
    (hsec : s.direct2DSection = some (i, st)) :
    d2dBlitToDibSection st rect = .error .unsupportedOperation ∧
    d2dBlitTransparentToDibSection st rect = .error .unsupportedOperation ∧
    d2dBlitToDibSectionFlags st rect flags = .error .unsupportedOperation ∧
    rmBlitToDibSection s rect = .error .unsupportedOperation ∧
    rmBlitTransparentToDibSection s rect = .error .unsupportedOperation := by
  refine ⟨rfl, rfl, rfl, ?_, ?_⟩ <;>
    cases s with
    | mk mode window dimension dib sec nid =>
      simp_all [rmBlitToDibSection, rmBlitTransparentToDibSection,
        d2dBlitToDibSection, d2dBlitTransparentToDibSection]

/-- Witness for C5 at a concrete Compositor-backed coordinator state. -/
theorem d2dCapture_unsupported_witness :
    rmD2D0.mode = .direct2d ∧
    rmD2D0.direct2DSection = some (0, d2dHwnd0) ∧
    rmBlitToDibSection rmD2D0 ⟨0, 0, 2, 3⟩ = .error .unsupportedOperation :=
  ⟨rfl, rfl,
    (d2dCapture_unsupported d2dHwnd0 ⟨0, 0, 2, 3⟩ 0 rmD2D0 0 rfl rfl).2.2.2.1⟩

/-- C6: every facade mutator that would change the pixel format, the
dimension or the raw buffer pointer outside of the initializing call —
assignProperties, clone, both setDimension variants, setPixelFormat, the
two-argument setProperties variants, setPropertiesWithoutResize and
setBuffer — raises UnsupportedOperation in every facade state (including
renderManager = none, before any backend exists); each throws before
touching anything, so no state is produced and the facade is unchanged. -/
theorem facadeMutators_unsupported (s src : DibFBState) (newDim : Dimension)
    (rect : Rect) (pf : PixelFormat) (newBuffer : Option Nat) :
    dibAssignProperties s src = .error .unsupportedOperation ∧
    dibClone s src = .error .unsupportedOperation ∧
    dibSetDimensionDim s newDim = .error .unsupportedOperation ∧
    dibSetDimensionRect s rect = .error .unsupportedOperation ∧
    dibSetPixelFormat s pf = .error .unsupportedOperation ∧
    dibSetPropertiesDim s newDim pf = .error .unsupportedOperation ∧
    dibSetPropertiesRect s rect pf = .error .unsupportedOperation ∧
    dibSetPropertiesWithoutResize s newDim pf = .error .unsupportedOperation ∧
    dibSetBuffer s newBuffer = .error .unsupportedOperation :=
  ⟨rfl, rfl, rfl, rfl, rfl, rfl, rfl, rfl, rfl⟩

/-- C10: DataCopy is a FIFO byte queue.  write appends the given bytes and
returns their count; read returns min(len, available()) and delivers
exactly the oldest that-many stored bytes in order, removing them from
the store; writing a sequence into a fresh DataCopy and reading it back
yields the same sequence and an empty store. -/
theorem dataCopy_fifo (dc : DataCopy) (data : List Nat) (len : Nat) :
    (dc.write data).1 = data.length ∧
    (dc.write data).2.buf = dc.buf ++ data ∧
    (dc.read len).2.1 = min len dc.available ∧
    (dc.read len).1 = dc.buf.take (min len dc.available) ∧
    (dc.read len).2.2.buf = dc.buf.drop (min len dc.available) ∧
    (DataCopy.new.write data).2.read data.length =
      (data, data.length, DataCopy.new) := by
  have hmin : (if dc.buf.length < len then dc.buf.length else len) =
      min len dc.available := by
    simp only [DataCopy.available]
    split <;> omega
  refine ⟨rfl, rfl, ?_, ?_, ?_, ?_⟩
  · simp [DataCopy.read, hmin]
  · simp [DataCopy.read, hmin]
  · simp [DataCopy.read, hmin]
  · simp [DataCopy.read, DataCopy.write, DataCopy.new]

/-- C2 counterexample: requesting the mode already in force (Raster on a
Raster-backed coordinator) indeed changes no state, but setRenderMode
returns false — the caller-visible failure indicator ("true if mode was
successfully set, false otherwise") — not success as the claim states. -/
theorem setRenderMode_sameMode_counterexample :
    rmSetRenderMode envAllOk rmRaster0 .gdi = .ok (false, rmRaster0) ∧
    (Except.ok (false, rmRaster0) : Except RMError (Bool × RMState)) ≠
      Except.ok (true, rmRaster0) := by
  exact ⟨rfl, by simp⟩

/-- C2 amended: calling setRenderMode with the current mode is a no-op
that changes no state, but it returns false, not success (whether it
takes the unavailability early-return or the same-mode early-return,
the result is .ok (false, unchanged state)). -/
theorem setRenderMode_sameMode_noop (env : Env) (s : RMState)
    (mode : RenderMode) (h : mode = s.mode) :
    rmSetRenderMode env s mode = .ok (false, s) := by
  by_cases hc : mode = RenderMode.direct2d ∧ env.d2dAvailable = false
  · simp [rmSetRenderMode, hc]
  · simp [rmSetRenderMode, hc, h]

/-- Witness for the amended C2 at a concrete Raster-backed state. -/
theorem setRenderMode_sameMode_noop_witness :
    RenderMode.gdi = rmRaster0.mode ∧
    rmSetRenderMode envAllOk rmRaster0 .gdi = .ok (false, rmRaster0) :=
  ⟨rfl, setRenderMode_sameMode_noop envAllOk rmRaster0 .gdi rfl⟩

/-- C7 counterexample: on the concrete window-bound backend d2dHwnd0
(pixel size 800x600), resizing twice to 1024x768 in an environment where
the native ID2D1HwndRenderTarget::Resize fails — a failure the source
logs and swallows without the target size changing — issues one native
resize call per invocation, two in total, refuting the unconditional
"at most one underlying native resize/rebind call" of the claim. -/
theorem d2dResize_retry_counterexample :
    (d2dResize envResizeFail d2dHwnd0 ⟨0, 0, 1024, 768⟩).2 +
      (d2dResize envResizeFail
        (d2dResize envResizeFail d2dHwnd0 ⟨0, 0, 1024, 768⟩).1
        ⟨0, 0, 1024, 768⟩).2 = 2 ∧
    ¬((d2dResize envResizeFail d2dHwnd0 ⟨0, 0, 1024, 768⟩).2 +
      (d2dResize envResizeFail
        (d2dResize envResizeFail d2dHwnd0 ⟨0, 0, 1024, 768⟩).1
        ⟨0, 0, 1024, 768⟩).2 ≤ 1) :=
  ⟨rfl, by decide⟩

/-- C7 amended: on a Compositor backend, resize with a rectangle whose
computed width and height equal the render target's current pixel size
performs no native resize or rebind (state unchanged, zero native
calls), unconditionally; and two successive resize calls with the
identical rectangle issue at most one native resize/rebind call in
total provided the native resize and rebind operations succeed when
issued, updating the target's pixel size (the success semantics of
ID2D1HwndRenderTarget::Resize and ID2D1DCRenderTarget::BindDC).  When
the native call fails it is logged and swallowed with the size
unchanged, and the second identical call retries it. -/
theorem d2dResize_idempotent (env : Env) (st : D2DState) (newSize : Rect) :
    (uint32OfInt (newSize.right - newSize.left) = st.rtPixelSize.1 ∧
      uint32OfInt (newSize.bottom - newSize.top) = st.rtPixelSize.2 →
        d2dResize env st newSize = (st, 0)) ∧
    (env.hwndResizeOk = true → env.bindDCOk = true →
      (d2dResize env st newSize).2 +
        (d2dResize env (d2dResize env st newSize).1 newSize).2 ≤ 1) := by
  constructor
  · intro h
    simp [d2dResize, h]
  · intro hres hbind
    by_cases h : uint32OfInt (newSize.right - newSize.left) = st.rtPixelSize.1 ∧
        uint32OfInt (newSize.bottom - newSize.top) = st.rtPixelSize.2
    · simp [d2dResize, h]
    · cases hk : st.targetKind
      · simp [d2dResize, h, hk, hres]
      · cases hg : env.getDCOk
        · simp [d2dResize, h, hk, hg]
        · simp [d2dResize, h, hk, hg, hbind]

/-- Witness for the amended C7: a concrete fully-succeeding environment,
backend and rectangle equal to the current 800x600 pixel size, so both
the unconditional no-op conjunct and the at-most-one bound are
exercised with every hypothesis discharged. -/
theorem d2dResize_idempotent_witness :
    d2dResize envAllOk d2dHwnd0 ⟨0, 0, 800, 600⟩ = (d2dHwnd0, 0) ∧
    (d2dResize envAllOk d2dHwnd0 ⟨0, 0, 800, 600⟩).2 +
      (d2dResize envAllOk
        (d2dResize envAllOk d2dHwnd0 ⟨0, 0, 800, 600⟩).1 ⟨0, 0, 800, 600⟩).2 ≤ 1 :=
  ⟨(d2dResize_idempotent envAllOk d2dHwnd0 ⟨0, 0, 800, 600⟩).1 ⟨rfl, rfl⟩,
    (d2dResize_idempotent envAllOk d2dHwnd0 ⟨0, 0, 800, 600⟩).2 rfl rfl⟩

/-- C4: given a resolved valid window, a created factory and succeeding
bitmap/buffer steps, Compositor backend construction attempts the
window-bound render target first — sized to the window's client area
when that area is non-empty, else to the clamped requested dimension;
only when that creation fails does it attempt a device-context-bound
render target (bound, when the device context is obtainable and BindDC
succeeds, to the client rectangle, else left unbound at size 0); and
when both attempts fail, construction raises an error instead of
producing a backend. -/
theorem initDirect2D_targetFallback (env : Env) (dim : Dimension) (win : Nat)
    (hwin : win ≠ 0)
    (hvalid : env.isWindow win = true)
    (hfac : env.factoryOk = true)
    (hbmp : env.bitmapOk = true)
    (hmal : env.mallocOk = true) :
    (env.hwndRTOk = true →
      ∃ st, initDirect2D env dim win = .ok st ∧ st.targetKind = .hwndRT ∧
        st.rtPixelSize =
          (if 0 < env.clientW win ∧ 0 < env.clientH win
            then (env.clientW win, env.clientH win)
            else ((max 1 dim.width).toNat, (max 1 dim.height).toNat))) ∧
    (env.hwndRTOk = false → env.dcRTOk = true →
      ∃ st, initDirect2D env dim win = .ok st ∧ st.targetKind = .dcRT ∧
        st.rtPixelSize =
          (if env.getDCOk then
            (if env.bindDCOk then
              (if 0 < env.clientW win ∧ 0 < env.clientH win
                then (env.clientW win, env.clientH win)
                else ((max 1 dim.width).toNat, (max 1 dim.height).toNat))
             else (0, 0))
           else (0, 0))) ∧
    (env.hwndRTOk = false → env.dcRTOk = false →
      initDirect2D env dim win = .error .renderTargetFailed) := by
  refine ⟨?_, ?_, ?_⟩
  · intro hh
    refine ⟨{ hwnd := win, mWidth := dim.width, mHeight := dim.height,
              targetKind := .hwndRT,
              rtPixelSize := (if 0 < env.clientW win ∧ 0 < env.clientH win
                then (env.clientW win, env.clientH win)
                else ((max 1 dim.width).toNat, (max 1 dim.height).toNat)),
              bitmapSize := ((max 1 dim.width).toNat, (max 1 dim.height).toNat),
              buffer := some (List.replicate
                ((max 1 dim.width).toNat * (max 1 dim.height).toNat * 4) 0) },
      ?_, rfl, rfl⟩
    simp [initDirect2D, hwin, hvalid, hfac, hbmp, hmal, hh]
  · intro hh1 hh2
    refine ⟨{ hwnd := win, mWidth := dim.width, mHeight := dim.height,
              targetKind := .dcRT,
              rtPixelSize := (if env.getDCOk then
                (if env.bindDCOk then
                  (if 0 < env.clientW win ∧ 0 < env.clientH win
                    then (env.clientW win, env.clientH win)
                    else ((max 1 dim.width).toNat, (max 1 dim.height).toNat))
                 else (0, 0))
               else (0, 0)),
              bitmapSize := ((max 1 dim.width).toNat, (max 1 dim.height).toNat),
              buffer := some (List.replicate
                ((max 1 dim.width).toNat * (max 1 dim.height).toNat * 4) 0) },
      ?_, rfl, rfl⟩
    simp [initDirect2D, hwin, hvalid, hfac, hbmp, hmal, hh1, hh2]
  · intro hh1 hh2
    simp [initDirect2D, hwin, hvalid, hfac, hh1, hh2]

/-- Witness for C4 at the concrete fully-succeeding environment (in
which the window-bound attempt succeeds), window 5 and dimension 2x3. -/
theorem initDirect2D_targetFallback_witness :
    (5 : Nat) ≠ 0 ∧ envAllOk.isWindow 5 = true ∧
    ∃ st, initDirect2D envAllOk ⟨2, 3⟩ 5 = .ok st ∧ st.targetKind = .hwndRT ∧
      st.rtPixelSize =
        (if 0 < envAllOk.clientW 5 ∧ 0 < envAllOk.clientH 5
          then (envAllOk.clientW 5, envAllOk.clientH 5)
          else ((max 1 (⟨2, 3⟩ : Dimension).width).toNat,
                (max 1 (⟨2, 3⟩ : Dimension).height).toNat)) :=
  ⟨by decide, rfl,
    (initDirect2D_targetFallback envAllOk ⟨2, 3⟩ 5
      (by decide) rfl rfl rfl rfl).1 rfl⟩

/-- C1 counterexample: coordinator rmRaster0 holds Raster backend id 0;
in envD2DFail the probe succeeds but Compositor construction fails
(both render-target creations fail).  setRenderMode(DIRECT2D) then
returns true (the claim says it reports failure) and the resulting
coordinator holds a freshly constructed Raster backend id 1 — the
existing backend instance id 0 was destroyed and replaced, not left
unchanged. -/
theorem setRenderMode_ctorFail_counterexample :
    rmSetRenderMode envD2DFail rmRaster0 .direct2d =
      .ok (true, { rmRaster0 with dibSection := some 1, nextId := 2 }) ∧
    ({ rmRaster0 with dibSection := some 1, nextId := 2 }).dibSection ≠
      rmRaster0.dibSection := by
  exact ⟨rfl, by simp [rmRaster0]⟩

/-- C1 amended: when the coordinator holds a Raster backend and a
switchMode(Compositor) call finds the probe succeeding but Compositor
construction failing, the call first destroys the existing Raster
backend, then falls back to constructing a fresh Raster backend in its
place: the mode value ends at Raster (unchanged) but the backend
instance is a new one (the old instance was destroyed before the
replacement was known constructible), and the call reports success
(true), not failure. -/
theorem setRenderMode_ctorFail_fallsBack (env : Env) (s : RMState)
    (i : Nat) (e : D2DInitError)
    (hmode : s.mode = .gdi)
    (hdib : s.dibSection = some i)
    (hfresh : i < s.nextId)
    (havail : env.d2dAvailable = true)
    (hwin : s.window ≠ 0)
    (hvalid : env.isWindow s.window = true)
    (hfail : initDirect2D env s.dimension s.window = .error e)
    (hdibok : env.dibCtorOk = true) :
    rmSetRenderMode env s .direct2d =
      .ok (true, { s with mode := .gdi, dibSection := some s.nextId,
                          direct2DSection := none, nextId := s.nextId + 1 }) ∧
    ({ s with mode := .gdi, dibSection := some s.nextId,
              direct2DSection := none, nextId := s.nextId + 1 }).dibSection ≠
      s.dibSection := by
  constructor
  · simp [rmSetRenderMode, rmCreateRenderer, rmDestroyRenderer,
      hmode, havail, hwin, hvalid, hfail, hdibok]
  · rw [hdib]
    simp
    omega

/-- Witness for the amended C1 at the concrete environment envD2DFail
(probe succeeds, both Compositor render-target creations fail) and the
concrete Raster-backed coordinator rmRaster0. -/
theorem setRenderMode_ctorFail_fallsBack_witness :
    rmSetRenderMode envD2DFail rmRaster0 .direct2d =
      .ok (true, { rmRaster0 with mode := .gdi,
                                  dibSection := some rmRaster0.nextId,
                                  direct2DSection := none,
                                  nextId := rmRaster0.nextId + 1 }) ∧
    ({ rmRaster0 with mode := .gdi, dibSection := some rmRaster0.nextId,
                      direct2DSection := none,
                      nextId := rmRaster0.nextId + 1 }).dibSection ≠
      rmRaster0.dibSection :=
  setRenderMode_ctorFail_fallsBack envD2DFail rmRaster0 0 .renderTargetFailed
    rfl rfl (by decide) rfl (by decide) rfl rfl rfl

end TightVNC
